import Mathlib

/-!
# Shallow embedding of `src/dmg_settings.py`

`dmg_settings.py` is a declarative configuration module for a disk-image
packaging tool.  Evaluating the module binds, in order, the top-level names
`os` (via `import os.path`), `base_dir`, `files`, `symlinks`,
`icon_locations`, `window_rect`, `icon_size` and `volume_name`.

The only environment dependence is `base_dir = os.path.abspath('.')`, which
is the process's current working directory.  We therefore embed the module as
a family of values parameterised by `cwd : String`, the (normalised,
absolute) current working directory: `os.path.abspath('.')` evaluates to
exactly that string.

Python dictionaries are embedded as association lists in insertion order;
Python integers as `Int`; Python tuples as products; Python strings as
`String`.
-/

namespace DmgSettings

/-- `os.path.isabs`-style check used only in statements: a POSIX path is
absolute iff its first character is `'/'`. -/
def strStartsWithSlash (p : String) : Bool :=
  match p.data with
  | c :: _ => c == '/'
  | [] => false

/-- Does the string end with `'/'`?  (Posix `a.endswith('/')`, used by
`os.path.join`.) -/
def strEndsWithSlash (p : String) : Bool :=
  match p.data.getLast? with
  | some c => c == '/'
  | none => false

/-- `os.path.join(a, b)` for exactly two POSIX path arguments, following
`posixpath.join`: if `b` is absolute the result is `b`; otherwise `b` is
appended to `a`, inserting `'/'` unless `a` is empty or already ends in
`'/'`. -/
def joinPath (a b : String) : String :=
  if strStartsWithSlash b then b
  else if a = "" ∨ strEndsWithSlash a then a ++ b
  else a ++ "/" ++ b

/-- `os.path.basename(p)` for POSIX paths: the part of `p` after the last
`'/'` (all of `p` if it has no `'/'`).  Computed by reversing the character
list and taking characters up to the first `'/'`. -/
def basename (p : String) : String :=
  String.mk ((p.data.reverse.takeWhile (fun c => !(c == '/'))).reverse)

/-- `base_dir = os.path.abspath('.')` (line 4): the current working
directory of the evaluating process. -/
def base_dir (cwd : String) : String := cwd

/-- `files` (lines 7-10): content mapping from absolute source path to the
display label inside the disk image. -/
def files (cwd : String) : List (String × String) :=
  [ (joinPath (base_dir cwd) "dist/gui_main.app", "gui_main.app"),
    (joinPath (base_dir cwd) "dist/gui_main/_internal", "_internal") ]

/-- `symlinks` (lines 13-15): mapping from display label to symlink
target path. -/
def symlinks : List (String × String) :=
  [ ("Aplicaciones", "/Applications") ]

/-- `icon_locations` (lines 18-22): mapping from display label to the
icon's (x, y) pixel coordinate inside the mounted-image window. -/
def icon_locations : List (String × (Int × Int)) :=
  [ ("gui_main.app", (140, 120)),
    ("Aplicaciones", (460, 120)),
    ("_internal", (300, 400)) ]

/-- `window_rect` (line 25): ((origin x, origin y), (width, height)). -/
def window_rect : (Int × Int) × (Int × Int) := ((200, 200), (600, 350))

/-- `icon_size` (line 26). -/
def icon_size : Int := 100

/-- `volume_name` (line 27). -/
def volume_name : String := "Instalador Transparente"

/-- The record of all six interface values produced by one evaluation of the
module in a working directory `cwd`. -/
structure DmgConfig where
  files : List (String × String)
  symlinks : List (String × String)
  icon_locations : List (String × (Int × Int))
  window_rect : (Int × Int) × (Int × Int)
  icon_size : Int
  volume_name : String
deriving DecidableEq

/-- Evaluating the module in working directory `cwd` yields this
configuration record. -/
def evalModule (cwd : String) : DmgConfig :=
  { files := files cwd
    symlinks := symlinks
    icon_locations := icon_locations
    window_rect := window_rect
    icon_size := icon_size
    volume_name := volume_name }

/-- The top-level names bound by executing the module, in binding order:
`import os.path` binds `os`, then the seven assignments bind the rest. -/
def moduleTopLevelNames : List String :=
  [ "os", "base_dir", "files", "symlinks", "icon_locations",
    "window_rect", "icon_size", "volume_name" ]

/-- The six names that the spec declares to be the module's interface. -/
def specInterfaceNames : List String :=
  [ "files", "symlinks", "icon_locations", "window_rect",
    "icon_size", "volume_name" ]

/-- Is the point `p` inside the width-by-height drawable extent `ext`
(coordinates relative to the window, bounds inclusive)? -/
def inExtentB (ext : Int × Int) (p : Int × Int) : Bool :=
  decide (0 ≤ p.1) && decide (p.1 ≤ ext.1) &&
  decide (0 ≤ p.2) && decide (p.2 ≤ ext.2)

/-- Is the point `p` inside the rectangle `r` given as (origin, size), with
both taken in the same absolute coordinate system (bounds inclusive)? -/
def inRectB (r : (Int × Int) × (Int × Int)) (p : Int × Int) : Bool :=
  decide (r.1.1 ≤ p.1) && decide (p.1 ≤ r.1.1 + r.2.1) &&
  decide (r.1.2 ≤ p.2) && decide (p.2 ≤ r.1.2 + r.2.2)

/-- Appending on the right preserves a leading `'/'`. -/
theorem strStartsWithSlash_append (a b : String)
    (h : strStartsWithSlash a = true) : strStartsWithSlash (a ++ b) = true := by
  unfold strStartsWithSlash at h ⊢
  rw [String.data_append]
  cases hd : a.data with
  | nil => simp [hd] at h
  | cons c rest =>
      simpa [hd] using h

/-- Joining any second component onto an absolute path yields an absolute
path. -/
theorem joinPath_abs (a b : String) (h : strStartsWithSlash a = true) :
    strStartsWithSlash (joinPath a b) = true := by
  unfold joinPath
  split
  · next hb => exact hb
  · split
    · exact strStartsWithSlash_append a b h
    · exact strStartsWithSlash_append _ _ (strStartsWithSlash_append a "/" h)

/-- The basename of any path ending in the literal relative path
`dist/gui_main.app` is `gui_main.app`. -/
theorem basename_append_gui (P : String) :
    basename (P ++ "dist/gui_main.app") = "gui_main.app" := by
  unfold basename
  rw [String.data_append, List.reverse_append, List.takeWhile_append,
    if_neg (by decide)]
  decide

/-- The basename of any path ending in the literal relative path
`dist/gui_main/_internal` is `_internal`. -/
theorem basename_append_int (P : String) :
    basename (P ++ "dist/gui_main/_internal") = "_internal" := by
  unfold basename
  rw [String.data_append, List.reverse_append, List.takeWhile_append,
    if_neg (by decide)]
  decide

/-- The first key of `files` has basename `gui_main.app`, whatever the
working directory. -/
theorem basename_join_gui (cwd : String) :
    basename (joinPath cwd "dist/gui_main.app") = "gui_main.app" := by
  unfold joinPath
  rw [if_neg (by decide)]
  split
  · exact basename_append_gui cwd
  · exact basename_append_gui (cwd ++ "/")

/-- The second key of `files` has basename `_internal`, whatever the
working directory. -/
theorem basename_join_int (cwd : String) :
    basename (joinPath cwd "dist/gui_main/_internal") = "_internal" := by
  unfold joinPath
  rw [if_neg (by decide)]
  split
  · exact basename_append_int cwd
  · exact basename_append_int (cwd ++ "/")

/-- Claim C1: every label appearing as a value of `files` or as a key of
`symlinks` appears as a key of `icon_locations`: the icon-placement label
set is a superset of the union of content and symlink labels. -/
theorem C1_icon_label_superset (cwd : String) :
    (((files cwd).map Prod.snd ++ symlinks.map Prod.fst).all
      (fun l => (icon_locations.map Prod.fst).contains l)) = true := by
  simp [files, symlinks, icon_locations]

/-- Witness for C1 at the concrete working directory `/b`. -/
theorem C1_icon_label_superset_witness :
    (((files "/b").map Prod.snd ++ symlinks.map Prod.fst).all
      (fun l => (icon_locations.map Prod.fst).contains l)) = true :=
  C1_icon_label_superset "/b"

/-- Claim C2 counterexample: the `_internal` entry of `icon_locations` is
at (300, 400), and that point lies outside the 600 × 350 drawable extent
given by the size component of `window_rect` (its y-coordinate 400 exceeds
the height 350), so not every entry lies within the drawable area. -/
theorem C2_coords_counterexample :
    ("_internal", ((300 : Int), (400 : Int))) ∈ icon_locations ∧
    inExtentB window_rect.2 (300, 400) = false := by
  decide

/-- Claim C2 (amended): every entry of `icon_locations` other than the one
labelled `_internal` has integer coordinates within the 600 × 350 extent
given by the size component of `window_rect`; the `_internal` entry at
(300, 400) lies outside that extent (it is deliberately parked out of
view, per the source comment). -/
theorem C2_coords_amended :
    icon_locations.all
      (fun e => e.1 == "_internal" || inExtentB window_rect.2 e.2) = true := by
  decide

/-- Claim C3: the width and height components of `window_rect` are
positive, and `icon_size` is a positive integer no larger than the smaller
of the two dimensions. -/
theorem C3_geometry_bounds :
    0 < window_rect.2.1 ∧ 0 < window_rect.2.2 ∧ 0 < icon_size ∧
    icon_size ≤ min window_rect.2.1 window_rect.2.2 := by
  decide

/-- Claim C4 counterexample: `icon_locations` assigns (140, 120) to
`gui_main.app`, but that point does not lie in the rectangle with origin
(200, 200) and size (600, 350) defined by `window_rect` (140 is less than
the origin x-coordinate 200). -/
theorem C4_rect_counterexample :
    icon_locations.lookup "gui_main.app" = some (140, 120) ∧
    inRectB window_rect (140, 120) = false := by
  decide

/-- Claim C4 (amended): the coordinate (140, 120) assigned to
`gui_main.app` in `icon_locations` lies within the window's drawable area,
the 600 × 350 extent given by the size component of `window_rect`
(icon coordinates are relative to the window, not to its screen origin). -/
theorem C4_rect_amended :
    icon_locations.lookup "gui_main.app" = some (140, 120) ∧
    inExtentB window_rect.2 (140, 120) = true := by
  decide

/-- Claim C5 counterexample: the module binds the top-level name
`base_dir`, which is not among the six interface names, so the module does
not define exactly the six stated names. -/
theorem C5_names_counterexample :
    "base_dir" ∈ moduleTopLevelNames ∧ "base_dir" ∉ specInterfaceNames := by
  decide

/-- Claim C5 (amended): the module defines the six interface names with
their stated shapes — in particular every key of `files` is an absolute
path whenever the working directory is absolute — but additionally binds
the top-level names `os` (from the import) and `base_dir`. -/
theorem C5_names_amended (cwd : String) (h : strStartsWithSlash cwd = true) :
    moduleTopLevelNames = "os" :: "base_dir" :: specInterfaceNames ∧
    (files cwd).all (fun kv => strStartsWithSlash kv.1) = true := by
  refine ⟨rfl, ?_⟩
  simp [files, base_dir, joinPath_abs _ _ h]

/-- Witness for the amended C5 at the concrete working directory
`/home/build`. -/
theorem C5_names_amended_witness :
    strStartsWithSlash "/home/build" = true ∧
    (moduleTopLevelNames = "os" :: "base_dir" :: specInterfaceNames ∧
     (files "/home/build").all (fun kv => strStartsWithSlash kv.1) = true) :=
  ⟨by decide, C5_names_amended "/home/build" (by decide)⟩

/-- Claim C6 counterexample: evaluating the module in working directory
`/a` and in `/b` yields different configurations — the keys of `files`
embed the working directory through `base_dir`. -/
theorem C6_env_counterexample : evalModule "/a" ≠ evalModule "/b" := by
  decide

/-- Claim C6 (amended): `symlinks`, `icon_locations`, `window_rect`,
`icon_size` and `volume_name` are identical across any two evaluation
environments; only `files` depends on the current working directory. -/
theorem C6_env_amended (c1 c2 : String) :
    (evalModule c1).symlinks = (evalModule c2).symlinks ∧
    (evalModule c1).icon_locations = (evalModule c2).icon_locations ∧
    (evalModule c1).window_rect = (evalModule c2).window_rect ∧
    (evalModule c1).icon_size = (evalModule c2).icon_size ∧
    (evalModule c1).volume_name = (evalModule c2).volume_name :=
  ⟨rfl, rfl, rfl, rfl, rfl⟩

/-- Witness for the amended C6 at the concrete working directories `/a`
and `/b`. -/
theorem C6_env_amended_witness :
    (evalModule "/a").symlinks = (evalModule "/b").symlinks ∧
    (evalModule "/a").icon_locations = (evalModule "/b").icon_locations ∧
    (evalModule "/a").window_rect = (evalModule "/b").window_rect ∧
    (evalModule "/a").icon_size = (evalModule "/b").icon_size ∧
    (evalModule "/a").volume_name = (evalModule "/b").volume_name :=
  C6_env_amended "/a" "/b"

/-- Claim C7: the display labels (the values of `files`) are pairwise
distinct, and each of them occurs as a key of `icon_locations`. -/
theorem C7_content_labels (cwd : String) :
    ((files cwd).map Prod.snd).Nodup ∧
    ((files cwd).map Prod.snd).all
      (fun l => (icon_locations.map Prod.fst).contains l) = true := by
  constructor
  · simp [files]
  · simp [files, icon_locations]

/-- Witness for C7 at the concrete working directory `/b`. -/
theorem C7_content_labels_witness :
    ((files "/b").map Prod.snd).Nodup ∧
    ((files "/b").map Prod.snd).all
      (fun l => (icon_locations.map Prod.fst).contains l) = true :=
  C7_content_labels "/b"

/-- Claim C9: for every entry of `files`, the display label equals the
final path component (basename) of the source path. -/
theorem C9_label_is_basename (cwd : String) :
    (files cwd).all (fun kv => basename kv.1 == kv.2) = true := by
  simp [files, base_dir, basename_join_gui, basename_join_int]

/-- Witness for C9 at the concrete working directory `/b`. -/
theorem C9_label_is_basename_witness :
    (files "/b").all (fun kv => basename kv.1 == kv.2) = true :=
  C9_label_is_basename "/b"

/-- Claim C10: the key set of `icon_locations` coincides exactly with the
union of the value set of `files` and the key set of `symlinks` — each
side is contained in the other. -/
theorem C10_exact_label_match (cwd : String) :
    (icon_locations.map Prod.fst).all
      (fun l => ((files cwd).map Prod.snd ++ symlinks.map Prod.fst).contains l) = true ∧
    ((files cwd).map Prod.snd ++ symlinks.map Prod.fst).all
      (fun l => (icon_locations.map Prod.fst).contains l) = true := by
  constructor <;> simp [files, symlinks, icon_locations]

/-- Witness for C10 at the concrete working directory `/b`. -/
theorem C10_exact_label_match_witness :
    (icon_locations.map Prod.fst).all
      (fun l => ((files "/b").map Prod.snd ++ symlinks.map Prod.fst).contains l) = true ∧
    ((files "/b").map Prod.snd ++ symlinks.map Prod.fst).all
      (fun l => (icon_locations.map Prod.fst).contains l) = true :=
  C10_exact_label_match "/b"

end DmgSettings
